import Mathlib

/-!
Shallow embedding of the payme webhook view layer (`src/payme/views.py`):
the dispatcher (`PaymeWebHookAPIView.post`), the authenticator
(`check_authorize`), and the six protocol method handlers, together with
the parts of the surrounding package (transaction model, time helpers,
exception classes) that are referenced by the view but absent from the
source tree; those parts are modelled from the specification and marked
as such in their doc comments.

Modelling conventions:
- Python dicts with known keys become structures of `Option` fields; a
  `KeyError` on a missing key is translated by the `handle_exceptions`
  decorator into `InternalServiceError "Invalid parameters received."`,
  which the handlers below return directly on the corresponding `none`.
- `Decimal` amounts and prices are modelled as `ℚ`.
- The database behind `TransactionModel.objects` is a `List Transaction`;
  `objects.get` is `List.find?`, `.save()` replaces the row by `id`, and a
  failed lookup (`DoesNotExist`, translated by `handle_exceptions`) is
  `accountDoesNotExist`.
- The `IncorrectAmount` f-string message names the expected and received
  values; the error constructor carries the two values themselves.
- Hooks (`handle_created_payment` etc.) are recorded as a list of events.
- `base64.b64decode(tok).decode("utf-8")` is an external library call.
  CPython's `b64decode` on a `str` first encodes it as ASCII and raises a
  plain `ValueError` on any non-ASCII character — an error the view's
  `except (binascii.Error, UnicodeDecodeError)` clause does not catch
  (`binascii.Error` subclasses `ValueError`, not the other way round), so
  that path escapes the view. The ASCII pre-check is therefore modelled
  explicitly; the remaining behaviour on ASCII tokens (`a2b_base64` plus
  UTF-8 decode) is passed in as an abstract `String → Option String`,
  with `none` for the caught `binascii.Error` / `UnicodeDecodeError`.
-/

namespace Payme

/-- Exception classes of the payme exceptions module as raised by the view
layer. `incorrectAmount` carries the expected and received values that the
view interpolates into its message. -/
inductive PaymeError where
  | permissionDenied (msg : String)
  | methodNotFound (msg : String)
  | invalidAccount (msg : String)
  | accountDoesNotExist
  | incorrectAmount (expected received : ℚ)
  | internalServiceError (msg : String)
  deriving DecidableEq, Repr

/-- Modelled from the spec: the transaction lifecycle states
{CREATED, PERFORMED, CANCELLED_AFTER_CREATE, CANCELLED_AFTER_PERFORM}. -/
inductive TState where
  | created
  | performed
  | cancelledAfterCreate
  | cancelledAfterPerform
  deriving DecidableEq, Repr

/-- Modelled from the spec: the merchant transaction model bound via
`settings.PAYME_TRANSACTION_MODEL` (not part of the source tree). Fields
follow §3 of the spec; timestamps are integers in the service time unit,
`ext_id` is nullable until first linked. `cancel_reason` also stands for
the `data["cancel_reason"]` entry read back by CheckTransaction and
GetStatement. -/
structure Transaction where
  id : String
  ext_id : Option String
  total_price : ℚ
  state : TState
  created_at : Int
  confirmed_at : Option Int
  canceled_at : Option Int
  cancel_reason : Option Int
  deriving DecidableEq, Repr

/-- Modelled from the spec: the `payme_state()` derivation — 1 while
awaiting performance, 2 once performed, −1/−2 once cancelled
before/after performance. -/
def Transaction.payme_state (t : Transaction) : Int :=
  match t.state with
  | .created => 1
  | .performed => 2
  | .cancelledAfterCreate => -1
  | .cancelledAfterPerform => -2

/-- Modelled from the spec: `is_performed()` holds in the PERFORMED state. -/
def Transaction.is_performed (t : Transaction) : Bool :=
  decide (t.state = TState.performed)

/-- Modelled from the spec: `is_cancelled()` holds in either cancelled state. -/
def Transaction.is_cancelled (t : Transaction) : Bool :=
  decide (t.state = TState.cancelledAfterCreate ∨ t.state = TState.cancelledAfterPerform)

/-- Modelled from the spec: `mark_as_performed()` moves CREATED to
PERFORMED setting `confirmed_at`; on any other state the operation cannot
complete and reports failure (`none`). -/
def Transaction.mark_as_performed (t : Transaction) (now : Int) : Option Transaction :=
  if t.state = TState.created then
    some { t with state := TState.performed, confirmed_at := some now }
  else
    none

/-- Modelled from the spec: `mark_as_cancelled(cancel_reason, payme_state)`
records the reason and `canceled_at` and moves to the cancelled state
matching the given gateway code (−2 after performance, otherwise −1). -/
def Transaction.mark_as_cancelled (t : Transaction) (reason : Int) (ps : Int) (now : Int) :
    Transaction :=
  { t with
    state := if ps = -2 then TState.cancelledAfterPerform else TState.cancelledAfterCreate,
    canceled_at := some now,
    cancel_reason := some reason }

/-- The transaction store behind `TransactionModel.objects`. -/
abbrev DB := List Transaction

/-- `TransactionModel.objects.get(id=tid)`: first row with this internal id. -/
def findById (db : DB) (tid : String) : Option Transaction :=
  db.find? (fun u => u.id == tid)

/-- `TransactionModel.objects.get(ext_id=pid)`: first row with this external id. -/
def findByExt (db : DB) (pid : String) : Option Transaction :=
  db.find? (fun u => u.ext_id == some pid)

/-- `tran.save()`: replace the row with the same internal id. -/
def saveTx (db : DB) (t : Transaction) : DB :=
  db.map (fun u => if u.id = t.id then t else u)

/-- Well-formedness of the store: internal ids are unique (primary key). -/
abbrev idsNodup (db : DB) : Prop :=
  (db.map Transaction.id).Nodup

/-- Modelled from the spec: `time_to_payme` of `payme/util.py` renders a
nullable service timestamp as a gateway epoch-millisecond integer, with 0
as the unset sentinel; the unit conversion itself is out of scope and
modelled as the identity. -/
def time_to_payme (t : Option Int) : Int :=
  t.getD 0

/-- Modelled from the spec: `time_to_service` of `payme/util.py` converts a
gateway epoch-millisecond value to the service time unit; modelled as the
identity. -/
def time_to_service (t : Int) : Int :=
  t

/-- Settings consulted by the view: the merchant key and the account field name. -/
structure Ctx where
  payme_key : String
  account_field : String

/-- The `params` object of the request envelope; each field is `none` when
the corresponding key is absent from the dict. `account` is the nested
account dict as an association list; `fromTime`/`toTime` model the
`from`/`to` keys of GetStatement. -/
structure Params where
  id : Option String := none
  amount : Option ℚ := none
  account : Option (List (String × String)) := none
  reason : Option Int := none
  fromTime : Option Int := none
  toTime : Option Int := none
  deriving DecidableEq, Repr

/-- Hook invocations recorded by the handlers. -/
inductive Hook where
  | created
  | performed
  | cancelled
  deriving DecidableEq, Repr

instance {ε ρ : Type} [DecidableEq ε] [DecidableEq ρ] : DecidableEq (Except ε ρ) := fun x y =>
  match x, y with
  | .ok a, .ok b =>
    if h : a = b then isTrue (by rw [h]) else isFalse (by intro hh; cases hh; exact h rfl)
  | .ok _, .error _ => isFalse (by intro h; cases h)
  | .error _, .ok _ => isFalse (by intro h; cases h)
  | .error a, .error b =>
    if h : a = b then isTrue (by rw [h]) else isFalse (by intro hh; cases hh; exact h rfl)

/-- Outcome of one handler call under the `handle_exceptions` decorator:
the protocol result or raised payme error, the store after the call, and
the hooks invoked. -/
structure HOut (ρ : Type) where
  result : Except PaymeError ρ
  db : DB
  hooks : List Hook
  deriving DecidableEq, Repr

/-- Response shape of CheckPerformTransaction. -/
structure CheckPerformResp where
  allow : Bool
  deriving DecidableEq, Repr

/-- Response shape of CreateTransaction. -/
structure CreateResp where
  transaction : Option String
  state : Int
  create_time : Int
  deriving DecidableEq, Repr

/-- Response shape of PerformTransaction. -/
structure PerformResp where
  transaction : Option String
  state : Int
  perform_time : Int
  deriving DecidableEq, Repr

/-- Response shape of CancelTransaction. -/
structure CancelResp where
  transaction : Option String
  state : Int
  cancel_time : Int
  deriving DecidableEq, Repr

/-- Response shape of CheckTransaction. -/
structure CheckResp where
  transaction : Option String
  state : Int
  reason : Option Int
  create_time : Int
  perform_time : Int
  cancel_time : Int
  deriving DecidableEq, Repr

/-- One record of the GetStatement response. -/
structure StatementItem where
  transaction : String
  amount : ℚ
  account_field : String
  account_value : String
  reason : Option Int
  state : Int
  create_time : Int
  perform_time : Int
  cancel_time : Int
  deriving DecidableEq, Repr

/-- Response shape of GetStatement. -/
structure StatementResp where
  transactions : List StatementItem
  deriving DecidableEq, Repr

/-- The message `handle_exceptions` substitutes for a `KeyError` escaping a
handler. -/
def invalidParamsMsg : String := "Invalid parameters received."

/-- `check_perform_transaction`: resolve the account field, look the
transaction up by internal id, validate the amount against
`total_price * 100`, answer `allow`. Never mutates. -/
def check_perform_transaction (ctx : Ctx) (db : DB) (params : Params) : HOut CheckPerformResp :=
  match params.account with
  | none => ⟨.error (.internalServiceError invalidParamsMsg), db, []⟩
  | some acct =>
    match acct.lookup ctx.account_field with
    | none => ⟨.error (.invalidAccount "Missing account field in parameters."), db, []⟩
    | some transaction_id =>
      if transaction_id = "" then
        ⟨.error (.invalidAccount "Missing account field in parameters."), db, []⟩
      else
        match findById db transaction_id with
        | none => ⟨.error .accountDoesNotExist, db, []⟩
        | some tran =>
          let received_amount : ℚ := params.amount.getD 0
          let expected_amount : ℚ := tran.total_price * 100
          if received_amount ≠ expected_amount then
            ⟨.error (.incorrectAmount expected_amount received_amount), db, []⟩
          else
            ⟨.ok ⟨true⟩, db, []⟩

/-- `create_transaction`: read the gateway transaction id, resolve the
account field, validate the amount, then link `ext_id` once (only when it
is currently falsy) and save; respond with the (possibly updated) row and
fire the created hook. -/
def create_transaction (ctx : Ctx) (db : DB) (params : Params) : HOut CreateResp :=
  match params.id with
  | none => ⟨.error (.internalServiceError invalidParamsMsg), db, []⟩
  | some payme_tr_id =>
    match params.account with
    | none => ⟨.error (.internalServiceError invalidParamsMsg), db, []⟩
    | some acct =>
      match acct.lookup ctx.account_field with
      | none => ⟨.error (.invalidAccount "Missing account field in parameters."), db, []⟩
      | some transaction_id =>
        if transaction_id = "" then
          ⟨.error (.invalidAccount "Missing account field in parameters."), db, []⟩
        else
          match findById db transaction_id with
          | none => ⟨.error .accountDoesNotExist, db, []⟩
          | some tran =>
            let received_amount : ℚ := params.amount.getD 0
            let expected_amount : ℚ := tran.total_price * 100
            if received_amount ≠ expected_amount then
              ⟨.error (.incorrectAmount expected_amount received_amount), db, []⟩
            else
              let assign : Bool := tran.ext_id = none ∨ tran.ext_id = some ""
              let tran' := if assign then { tran with ext_id := some payme_tr_id } else tran
              let db' := if assign then saveTx db tran' else db
              ⟨.ok ⟨tran'.ext_id, tran'.payme_state, time_to_payme (some tran'.created_at)⟩,
                db', [Hook.created]⟩

/-- `perform_transaction`: resolve by external id; if already performed,
replay the stored payload without mutation or hooks; otherwise mark
performed, save, respond, and fire the performed hook; a failed
`mark_as_performed` raises an internal error. -/
def perform_transaction (db : DB) (params : Params) (now : Int) : HOut PerformResp :=
  match params.id with
  | none => ⟨.error (.internalServiceError invalidParamsMsg), db, []⟩
  | some payme_tr_id =>
    match findByExt db payme_tr_id with
    | none => ⟨.error .accountDoesNotExist, db, []⟩
    | some tran =>
      if tran.is_performed then
        ⟨.ok ⟨tran.ext_id, tran.payme_state, time_to_payme tran.confirmed_at⟩, db, []⟩
      else
        match tran.mark_as_performed now with
        | none => ⟨.error (.internalServiceError "Cannot perform transaction"), db, []⟩
        | some tran' =>
          ⟨.ok ⟨tran'.ext_id, tran'.payme_state, time_to_payme tran'.confirmed_at⟩,
            saveTx db tran', [Hook.performed]⟩

/-- The `_cancel_response` helper. -/
def cancelResp (t : Transaction) : CancelResp :=
  ⟨t.ext_id, t.payme_state, time_to_payme t.canceled_at⟩

/-- `cancel_transaction`: read id and reason, resolve by external id; if
already cancelled, replay the stored payload without mutation or hooks;
otherwise cancel with code −2 when performed and −1 otherwise, save,
respond, and fire the cancelled hook. -/
def cancel_transaction (db : DB) (params : Params) (now : Int) : HOut CancelResp :=
  match params.id with
  | none => ⟨.error (.internalServiceError invalidParamsMsg), db, []⟩
  | some payme_tr_id =>
    match params.reason with
    | none => ⟨.error (.internalServiceError invalidParamsMsg), db, []⟩
    | some cancel_reason =>
      match findByExt db payme_tr_id with
      | none => ⟨.error .accountDoesNotExist, db, []⟩
      | some tran =>
        if tran.is_cancelled then
          ⟨.ok (cancelResp tran), db, []⟩
        else
          let payme_state : Int := if tran.is_performed then -2 else -1
          let tran' := tran.mark_as_cancelled cancel_reason payme_state now
          ⟨.ok (cancelResp tran'), saveTx db tran', [Hook.cancelled]⟩

/-- `check_transaction`: resolve by external id and report the full record. -/
def check_transaction (db : DB) (params : Params) : HOut CheckResp :=
  match params.id with
  | none => ⟨.error (.internalServiceError invalidParamsMsg), db, []⟩
  | some payme_tr_id =>
    match findByExt db payme_tr_id with
    | none => ⟨.error .accountDoesNotExist, db, []⟩
    | some tran =>
      ⟨.ok ⟨tran.ext_id, tran.payme_state, tran.cancel_reason,
        time_to_payme (some tran.created_at), time_to_payme tran.confirmed_at,
        time_to_payme tran.canceled_at⟩, db, []⟩

/-- Descending order on `created_at`, the `order_by('-created_at')` relation. -/
def stmtGE (x y : Transaction) : Prop :=
  y.created_at ≤ x.created_at

instance : DecidableRel stmtGE :=
  fun x y => inferInstanceAs (Decidable (y.created_at ≤ x.created_at))

instance : IsTotal Transaction stmtGE :=
  ⟨fun a b => le_total b.created_at a.created_at⟩

instance : IsTrans Transaction stmtGE :=
  ⟨fun _ _ _ hab hbc => le_trans hbc hab⟩

/-- Shape of one GetStatement record: `ext_id or str(id)` (falsy-aware),
amount in tiyin, the account mapping, reason, state, and the three
timestamps. -/
def statementItem (ctx : Ctx) (t : Transaction) : StatementItem :=
  { transaction :=
      match t.ext_id with
      | none => t.id
      | some s => if s = "" then t.id else s,
    amount := t.total_price * 100,
    account_field := ctx.account_field,
    account_value := t.id,
    reason := t.cancel_reason,
    state := t.payme_state,
    create_time := time_to_payme (some t.created_at),
    perform_time := time_to_payme t.confirmed_at,
    cancel_time := time_to_payme t.canceled_at }

/-- `get_statement`: convert the range bounds to service time, select rows
with `created_at` in the inclusive range, newest first, and shape each. -/
def get_statement (ctx : Ctx) (db : DB) (params : Params) : HOut StatementResp :=
  match params.fromTime with
  | none => ⟨.error (.internalServiceError invalidParamsMsg), db, []⟩
  | some f =>
    match params.toTime with
    | none => ⟨.error (.internalServiceError invalidParamsMsg), db, []⟩
    | some tl =>
      let from_time := time_to_service f
      let to_time := time_to_service tl
      let rows := List.insertionSort stmtGE
        (db.filter (fun t => decide (from_time ≤ t.created_at ∧ t.created_at ≤ to_time)))
      ⟨.ok ⟨rows.map (statementItem ctx)⟩, db, []⟩

/-- Split a character list at every separator, keeping empty groups; always
yields at least one group, like Python `str.split(sep)`. -/
def splitChars (p : Char → Bool) : List Char → List (List Char)
  | [] => [[]]
  | c :: cs =>
    match splitChars p cs with
    | [] => [[]]
    | g :: gs => if p c then [] :: g :: gs else (c :: g) :: gs

/-- Python `s.split()`: split on whitespace runs, dropping empty pieces. -/
def pySplitWs (s : String) : List String :=
  ((splitChars Char.isWhitespace s.toList).map String.mk).filter (fun t => !(t == ""))

/-- Python `s.split(":")[-1]`: last colon-separated segment; `split` with a
separator always yields at least one piece, so the default is never used. -/
def lastColonSeg (s : String) : String :=
  (((splitChars (· == ':') s.toList)).map String.mk).getLastD ""

/-- Outcome of `check_authorize`: pass, a raised `PermissionDenied`, or an
exception that no handler catches (escapes the view as a server error). -/
inductive AuthResult where
  | ok
  | denied (msg : String)
  | crash (msg : String)
  deriving DecidableEq, Repr

/-- CPython's `_bytes_from_decode_data` precondition: `b64decode` on a
`str` first encodes it as ASCII, so a token with any character ≥ U+0080
raises a plain `ValueError` that the view's except clause does not catch. -/
def isAsciiStr (s : String) : Bool :=
  s.toList.all (fun c => decide (c.toNat < 128))

/-- `check_authorize`: reject a falsy header; take the last
whitespace-separated token (an empty token list raises an uncaught
IndexError); base64-decode it — a non-ASCII token raises an uncaught
plain ValueError, while a caught `binascii.Error`/`UnicodeDecodeError`
(modelled by `b64` returning `none`) raises PermissionDenied; compare the
last colon-separated segment of the decoded text with the merchant key. -/
def check_authorize (payme_key : String) (b64 : String → Option String)
    (auth : Option String) : AuthResult :=
  match auth with
  | none => .denied "Missing authentication credentials"
  | some password =>
    if password = "" then .denied "Missing authentication credentials"
    else
      match (pySplitWs password).getLast? with
      | none => .crash "IndexError: list index out of range"
      | some tok =>
        if isAsciiStr tok then
          match b64 tok with
          | none => .denied "Decoding error in authentication credentials"
          | some decoded =>
            if lastColonSeg decoded ≠ payme_key then
              .denied "Invalid merchant key specified"
            else
              .ok
        else
          .crash "ValueError: string argument should contain only ASCII characters"

/-- The request as seen by `post`: the authorization header and the
`method`/`params` keys of the JSON body (`none` when absent). -/
structure Request where
  auth : Option String
  method : Option String
  params : Option Params
  deriving Repr

/-- The successful payload of one dispatched call. -/
inductive PostResult where
  | checkPerform (r : CheckPerformResp)
  | create (r : CreateResp)
  | perform (r : PerformResp)
  | cancel (r : CancelResp)
  | check (r : CheckResp)
  | statement (r : StatementResp)
  deriving DecidableEq, Repr

/-- Outcome of `post`: a protocol result, a raised payme error, or an
uncaught exception escaping the view. -/
inductive RpcOutcome where
  | ok (r : PostResult)
  | err (e : PaymeError)
  | crash (msg : String)
  deriving DecidableEq, Repr

/-- Outcome, store, and hooks of one `post` call. -/
structure PostOut where
  result : RpcOutcome
  db : DB
  hooks : List Hook
  deriving DecidableEq, Repr

/-- Lift a handler outcome into the dispatcher outcome. -/
def wrapOut {ρ : Type} (inj : ρ → PostResult) (h : HOut ρ) : PostOut :=
  { result :=
      match h.result with
      | .ok r => .ok (inj r)
      | .error e => .err e,
    db := h.db,
    hooks := h.hooks }

/-- The six method names of the dispatch table. -/
def paymeMethodNames : List String :=
  ["GetStatement", "CancelTransaction", "PerformTransaction",
   "CreateTransaction", "CheckTransaction", "CheckPerformTransaction"]

/-- `PaymeWebHookAPIView.post`: authenticate, then read `method` and
`params` (a missing key raises InternalServiceError with the offending
key), then route through the fixed six-entry table or raise
MethodNotFound. -/
def post (ctx : Ctx) (b64 : String → Option String) (req : Request) (db : DB) (now : Int) :
    PostOut :=
  match check_authorize ctx.payme_key b64 req.auth with
  | .denied msg => ⟨.err (.permissionDenied msg), db, []⟩
  | .crash msg => ⟨.crash msg, db, []⟩
  | .ok =>
    match req.method with
    | none => ⟨.err (.internalServiceError "Error processing webhook: KeyError method"), db, []⟩
    | some m =>
      match req.params with
      | none => ⟨.err (.internalServiceError "Error processing webhook: KeyError params"), db, []⟩
      | some p =>
        if m = "GetStatement" then wrapOut .statement (get_statement ctx db p)
        else if m = "CancelTransaction" then wrapOut .cancel (cancel_transaction db p now)
        else if m = "PerformTransaction" then wrapOut .perform (perform_transaction db p now)
        else if m = "CreateTransaction" then wrapOut .create (create_transaction ctx db p)
        else if m = "CheckTransaction" then wrapOut .check (check_transaction db p)
        else if m = "CheckPerformTransaction" then
          wrapOut .checkPerform (check_perform_transaction ctx db p)
        else ⟨.err (.methodNotFound "Method not supported yet!"), db, []⟩

/-- Does the dispatcher outcome consist of a raised PermissionDenied? -/
def isPermissionDenied : RpcOutcome → Bool
  | .err (.permissionDenied _) => true
  | _ => false

/-- Is the authentication outcome a raised PermissionDenied? -/
def isDenied : AuthResult → Bool
  | .denied _ => true
  | _ => false

/-- Concrete settings used to exercise the definitions. -/
def ctx0 : Ctx := ⟨"key", "order_id"⟩

/-- A decoder on which every token fails to decode. -/
def b64none : String → Option String := fun _ => none

/-- A decoder on which every token decodes to a credential holding the key. -/
def b64key : String → Option String := fun _ => some "login:key"

/-- A sample unlinked transaction with price 100, in store `db0`. -/
def tx0 : Transaction := ⟨"5", none, 100, TState.created, 10, none, none, none⟩

/-- A sample linked, not yet performed transaction, in store `db1`. -/
def tx1 : Transaction := ⟨"7", some "ext1", 100, TState.created, 10, none, none, none⟩

/-- Store holding `tx0`. -/
def db0 : DB := [tx0]

/-- Store holding `tx1`. -/
def db1 : DB := [tx1]

/-- Params carrying a mismatched amount for `tx0`. -/
def pAmt : Params := { id := some "ext9", amount := some 999, account := some [("order_id", "5")] }

/-- Params carrying the matching amount for `tx0`. -/
def pOk : Params := { id := some "ext9", amount := some 10000, account := some [("order_id", "5")] }

/-- Params with the amount key absent, account resolving to `tx0`. -/
def pNoAmt : Params := { id := some "ext9", account := some [("order_id", "5")] }

/-- Params with the account object absent. -/
def pNoAcct : Params := { id := some "ext9", amount := some 10000 }

/-- Params of a Perform/Check call on `tx1`. -/
def pPerf : Params := { id := some "ext1" }

/-- Params of a Cancel call on `tx1`. -/
def pCancel : Params := { id := some "ext1", reason := some 3 }

/-- Params of a GetStatement call over the range [0, 100]. -/
def pStmt : Params := { fromTime := some 0, toTime := some 100 }

/-- The row as stored by a successful CreateTransaction: `ext_id` is
assigned from the gateway transaction id exactly when it was falsy
(`None` or empty), as in the `if not tran.ext_id` branch of the view. -/
def linkedTx (tran : Transaction) (pid : String) : Transaction :=
  if tran.ext_id = none ∨ tran.ext_id = some "" then { tran with ext_id := some pid } else tran

theorem idsNodup_saveTx {db : DB} {t : Transaction} (h : idsNodup db) :
    idsNodup (saveTx db t) := by
  have hmap : (saveTx db t).map Transaction.id = db.map Transaction.id := by
    simp only [saveTx, List.map_map]
    apply List.map_congr_left
    intro u _
    by_cases hu : u.id = t.id
    · simp [Function.comp, hu]
    · simp [Function.comp, hu]
  unfold idsNodup
  rw [hmap]
  exact h

theorem find?_saveTx {db : DB} {t t' : Transaction} {p : Transaction → Bool}
    (hnd : idsNodup db) (hf : db.find? p = some t) (hid : t'.id = t.id) (hp : p t' = true) :
    (saveTx db t').find? p = some t' := by
  induction db with
  | nil => simp [List.find?] at hf
  | cons u tl ih =>
    rw [idsNodup, List.map_cons, List.nodup_cons] at hnd
    obtain ⟨hu, htl⟩ := hnd
    by_cases hpu : p u = true
    · rw [List.find?_cons_of_pos _ hpu] at hf
      injection hf with hf
      subst hf
      have hcond : u.id = t'.id := hid.symm
      simp only [saveTx, List.map_cons, if_pos hcond]
      exact List.find?_cons_of_pos _ hp
    · rw [List.find?_cons_of_neg _ hpu] at hf
      have hmem : t ∈ tl := List.mem_of_find?_eq_some hf
      have hne : u.id ≠ t'.id := by
        rw [hid]
        intro hcontra
        exact hu (hcontra ▸ List.mem_map_of_mem Transaction.id hmem)
      simp only [saveTx, List.map_cons, if_neg hne]
      rw [List.find?_cons_of_neg _ hpu]
      exact ih htl hf

/-- C1: a received amount differing from the stored price times 100 makes
both CheckPerformTransaction and CreateTransaction raise IncorrectAmount
naming the expected and the received value, with the store unchanged and
no hook fired; in particular CreateTransaction reaches its `ext_id`
assignment only after the amount check has passed. -/
theorem amount_mismatch_incorrect_amount
    (ctx : Ctx) (db : DB) (params : Params) (acct : List (String × String))
    (tid : String) (tran : Transaction)
    (hacct : params.account = some acct)
    (hlook : acct.lookup ctx.account_field = some tid)
    (htid : tid ≠ "")
    (hfind : findById db tid = some tran)
    (hne : params.amount.getD 0 ≠ tran.total_price * 100) :
    check_perform_transaction ctx db params =
      ⟨.error (.incorrectAmount (tran.total_price * 100) (params.amount.getD 0)), db, []⟩ ∧
    ∀ pid, params.id = some pid →
      create_transaction ctx db params =
        ⟨.error (.incorrectAmount (tran.total_price * 100) (params.amount.getD 0)), db, []⟩ := by
  constructor
  · simp [check_perform_transaction, hacct, hlook, htid, hfind, hne]
  · intro pid hpid
    simp [create_transaction, hpid, hacct, hlook, htid, hfind, hne]

theorem amount_mismatch_witness :
    check_perform_transaction ctx0 db0 pAmt =
      ⟨.error (.incorrectAmount (tx0.total_price * 100) (pAmt.amount.getD 0)), db0, []⟩ ∧
    create_transaction ctx0 db0 pAmt =
      ⟨.error (.incorrectAmount (tx0.total_price * 100) (pAmt.amount.getD 0)), db0, []⟩ := by
  have h := amount_mismatch_incorrect_amount ctx0 db0 pAmt [("order_id", "5")] "5" tx0
    (by decide) (by decide) (by decide) (by decide) (by norm_num [pAmt, tx0])
  exact ⟨h.1, h.2 "ext9" (by decide)⟩

/-- C10: a params mapping without the amount key is read as a received
amount of 0, so a transaction with nonzero stored price gets
IncorrectAmount with expected `price * 100` and received 0, while a
transaction with stored price 0 proceeds as if the matching amount had
been sent, in both CheckPerformTransaction and CreateTransaction. -/
theorem missing_amount_defaults_zero
    (ctx : Ctx) (db : DB) (params : Params) (acct : List (String × String))
    (tid : String) (tran : Transaction)
    (hacct : params.account = some acct)
    (hlook : acct.lookup ctx.account_field = some tid)
    (htid : tid ≠ "")
    (hfind : findById db tid = some tran)
    (hamt : params.amount = none) :
    (tran.total_price ≠ 0 →
      check_perform_transaction ctx db params =
        ⟨.error (.incorrectAmount (tran.total_price * 100) 0), db, []⟩ ∧
      ∀ pid, params.id = some pid →
        create_transaction ctx db params =
          ⟨.error (.incorrectAmount (tran.total_price * 100) 0), db, []⟩) ∧
    (tran.total_price = 0 →
      (check_perform_transaction ctx db params).result = .ok ⟨true⟩ ∧
      ∀ pid, params.id = some pid →
        ∃ r, (create_transaction ctx db params).result = .ok r) := by
  constructor
  · intro hp
    have hne : (0 : ℚ) ≠ tran.total_price * 100 :=
      (mul_ne_zero hp (by norm_num)).symm
    constructor
    · simp [check_perform_transaction, hacct, hlook, htid, hfind, hamt, hne]
    · intro pid hpid
      simp [create_transaction, hpid, hacct, hlook, htid, hfind, hamt, hne]
  · intro hz
    constructor
    · simp [check_perform_transaction, hacct, hlook, htid, hfind, hamt, hz]
    · intro pid hpid
      simp [create_transaction, hpid, hacct, hlook, htid, hfind, hamt, hz]

theorem missing_amount_witness :
    check_perform_transaction ctx0 db0 pNoAmt =
      ⟨.error (.incorrectAmount (tx0.total_price * 100) 0), db0, []⟩ ∧
    create_transaction ctx0 db0 pNoAmt =
      ⟨.error (.incorrectAmount (tx0.total_price * 100) 0), db0, []⟩ := by
  have h := (missing_amount_defaults_zero ctx0 db0 pNoAmt [("order_id", "5")] "5" tx0
    (by decide) (by decide) (by decide) (by decide) (by decide)).1 (by norm_num [tx0])
  exact ⟨h.1, h.2 "ext9" (by decide)⟩

/-- C6 counterexample: with the account object itself absent from params,
both CheckPerformTransaction and CreateTransaction raise
InternalServiceError (the translated KeyError), not InvalidAccount, so
the claimed behaviour does not hold for all param mappings. -/
theorem account_object_missing_counterexample :
    (check_perform_transaction ctx0 db0 pNoAcct).result =
      .error (.internalServiceError "Invalid parameters received.") ∧
    (create_transaction ctx0 db0 pNoAcct).result =
      .error (.internalServiceError "Invalid parameters received.") :=
  ⟨rfl, rfl⟩

/-- C6 (amended): when the account object is present, absence of the
configured account-field key (or a falsy empty value) raises
InvalidAccount, and a present non-empty value matching no stored
transaction raises AccountDoesNotExist; when the account object itself is
absent, the escaping KeyError is translated to InternalServiceError
instead. This holds for both CheckPerformTransaction and
CreateTransaction. -/
theorem account_resolution_amended
    (ctx : Ctx) (db : DB) (params : Params) (pid : String)
    (hpid : params.id = some pid) :
    (params.account = none →
      (check_perform_transaction ctx db params).result =
        .error (.internalServiceError invalidParamsMsg) ∧
      (create_transaction ctx db params).result =
        .error (.internalServiceError invalidParamsMsg)) ∧
    (∀ acct, params.account = some acct →
      (acct.lookup ctx.account_field = none ∨ acct.lookup ctx.account_field = some "") →
      (check_perform_transaction ctx db params).result =
        .error (.invalidAccount "Missing account field in parameters.") ∧
      (create_transaction ctx db params).result =
        .error (.invalidAccount "Missing account field in parameters.")) ∧
    (∀ acct tid, params.account = some acct →
      acct.lookup ctx.account_field = some tid → tid ≠ "" → findById db tid = none →
      (check_perform_transaction ctx db params).result = .error .accountDoesNotExist ∧
      (create_transaction ctx db params).result = .error .accountDoesNotExist) := by
  refine ⟨?_, ?_, ?_⟩
  · intro hacct
    exact ⟨by simp [check_perform_transaction, hacct, invalidParamsMsg],
           by simp [create_transaction, hpid, hacct, invalidParamsMsg]⟩
  · intro acct hacct hcase
    rcases hcase with h | h
    · exact ⟨by simp [check_perform_transaction, hacct, h],
             by simp [create_transaction, hpid, hacct, h]⟩
    · exact ⟨by simp [check_perform_transaction, hacct, h],
             by simp [create_transaction, hpid, hacct, h]⟩
  · intro acct tid hacct hlook htid hfind
    exact ⟨by simp [check_perform_transaction, hacct, hlook, htid, hfind],
           by simp [create_transaction, hpid, hacct, hlook, htid, hfind]⟩

theorem account_resolution_amended_witness :
    (check_perform_transaction ctx0 db0 pNoAcct).result =
      .error (.internalServiceError invalidParamsMsg) ∧
    (create_transaction ctx0 db0 pNoAcct).result =
      .error (.internalServiceError invalidParamsMsg) :=
  (account_resolution_amended ctx0 db0 pNoAcct "ext9" (by decide)).1 (by decide)

/-- C5 counterexample: the header containing the non-ASCII token fails
base64 decoding, yet `post` does not raise PermissionDenied: CPython's
`b64decode` raises a plain ValueError on non-ASCII input, which the
`except (binascii.Error, UnicodeDecodeError)` clause does not catch, so
the request escapes the view as an unhandled error instead. -/
theorem non_ascii_token_counterexample :
    check_authorize "key" b64none (some "Basic é") =
      .crash "ValueError: string argument should contain only ASCII characters" ∧
    (post ctx0 b64none ⟨some "Basic é", some "PerformTransaction", some pPerf⟩ db1 0).result =
      .crash "ValueError: string argument should contain only ASCII characters" :=
  ⟨by decide, by decide⟩

/-- C5 (amended): when the Authorization header is missing (or empty),
when the extracted token is ASCII but fails base64 decoding (the caught
`binascii.Error`/`UnicodeDecodeError` cases), or when the decoded
credential's last colon-separated segment differs from the merchant key,
`post` raises PermissionDenied with the store untouched and no hook
fired, and its outcome is independent of the body's method and params —
no handler executes. (A non-ASCII token instead escapes as an uncaught
ValueError, and a whitespace-only header as an uncaught IndexError.) -/
theorem unauthorized_no_dispatch
    (ctx : Ctx) (b64 : String → Option String) (auth : Option String)
    (hbad :
      (auth = none ∨ auth = some "") ∨
      (∃ s tok, auth = some s ∧ s ≠ "" ∧ (pySplitWs s).getLast? = some tok ∧
        isAsciiStr tok = true ∧ b64 tok = none) ∨
      (∃ s tok dec, auth = some s ∧ s ≠ "" ∧ (pySplitWs s).getLast? = some tok ∧
        isAsciiStr tok = true ∧ b64 tok = some dec ∧ lastColonSeg dec ≠ ctx.payme_key)) :
    ∀ (method : Option String) (params : Option Params) (db : DB) (now : Int),
      isPermissionDenied (post ctx b64 ⟨auth, method, params⟩ db now).result = true ∧
      (post ctx b64 ⟨auth, method, params⟩ db now).db = db ∧
      (post ctx b64 ⟨auth, method, params⟩ db now).hooks = [] ∧
      post ctx b64 ⟨auth, method, params⟩ db now = post ctx b64 ⟨auth, none, none⟩ db now := by
  have hdenied : ∃ msg, check_authorize ctx.payme_key b64 auth = .denied msg := by
    rcases hbad with (h | h) |
      (⟨s, tok, hs, hne, hlast, ha, hb⟩ | ⟨s, tok, dec, hs, hne, hlast, ha, hb, hk⟩)
    · exact ⟨"Missing authentication credentials", by simp [check_authorize, h]⟩
    · exact ⟨"Missing authentication credentials", by simp [check_authorize, h]⟩
    · subst hs
      exact ⟨"Decoding error in authentication credentials",
        by simp [check_authorize, hne, hlast, ha, hb]⟩
    · subst hs
      exact ⟨"Invalid merchant key specified", by simp [check_authorize, hne, hlast, ha, hb, hk]⟩
  obtain ⟨msg, hmsg⟩ := hdenied
  intro method params db now
  refine ⟨?_, ?_, ?_, ?_⟩ <;> simp [post, hmsg, isPermissionDenied]

theorem unauthorized_no_dispatch_witness :
    isPermissionDenied (post ctx0 b64none ⟨none, some "PerformTransaction", some pPerf⟩ db1 0).result
      = true ∧
    (post ctx0 b64none ⟨none, some "PerformTransaction", some pPerf⟩ db1 0).db = db1 ∧
    (post ctx0 b64none ⟨none, some "PerformTransaction", some pPerf⟩ db1 0).hooks = [] ∧
    post ctx0 b64none ⟨none, some "PerformTransaction", some pPerf⟩ db1 0 =
      post ctx0 b64none ⟨none, none, none⟩ db1 0 :=
  unauthorized_no_dispatch ctx0 b64none none (Or.inl (Or.inl rfl))
    (some "PerformTransaction") (some pPerf) db1 0

/-- C9 counterexample: the all-whitespace header fails authentication but
does not produce the permission-denied outcome: `split()` yields no token
and the `[-1]` indexing raises an IndexError that nothing catches, so the
failure escapes the view as an unhandled error, also through `post`. -/
theorem auth_crash_counterexample :
    check_authorize "key" b64none (some " ") = .crash "IndexError: list index out of range" ∧
    (post ctx0 b64none ⟨some " ", some "CheckTransaction", some pPerf⟩ db1 0).result =
      .crash "IndexError: list index out of range" := by
  exact ⟨by decide, by decide⟩

/-- C9 (amended): for every header that is missing, empty, or yields a
whitespace-separated token that is pure ASCII, any authentication failure
produces the same externally-visible permission-denied outcome (the
denied constructor of `check_authorize`), never a different exception.
The two excluded input classes escape the view as uncaught errors: a
non-empty all-whitespace header (IndexError on the token indexing) and a
header whose token contains a non-ASCII character (plain ValueError from
`b64decode`, not caught by the binascii/unicode except clause). -/
theorem auth_uniform_denial
    (key : String) (b64 : String → Option String) (auth : Option String)
    (htok : ∀ s, auth = some s → s ≠ "" → (pySplitWs s).getLast? ≠ none)
    (hascii : ∀ s tok, auth = some s → (pySplitWs s).getLast? = some tok →
      isAsciiStr tok = true)
    (hfail : check_authorize key b64 auth ≠ .ok) :
    isDenied (check_authorize key b64 auth) = true := by
  cases auth with
  | none => simp [check_authorize, isDenied]
  | some s =>
    by_cases hs : s = ""
    · subst hs
      simp [check_authorize, isDenied]
    · have h := htok s rfl hs
      cases hl : (pySplitWs s).getLast? with
      | none => exact absurd hl h
      | some tok =>
        have ha := hascii s tok rfl hl
        cases hb : b64 tok with
        | none => simp [check_authorize, hs, hl, ha, hb, isDenied]
        | some dec =>
          by_cases hk : lastColonSeg dec ≠ key
          · simp [check_authorize, hs, hl, ha, hb, hk, isDenied]
          · exfalso
            apply hfail
            simp [check_authorize, hs, hl, ha, hb, hk]

theorem auth_uniform_denial_witness :
    isDenied (check_authorize "key" b64none (some "Basic abcd")) = true :=
  auth_uniform_denial "key" b64none (some "Basic abcd")
    (by
      intro s hs hne
      injection hs with h
      subst h
      decide)
    (by
      intro s tok hs htok
      injection hs with h
      subst h
      have h2 : some "abcd" = some tok := by
        rw [← htok]
        decide
      injection h2 with h3
      subst h3
      decide)
    (by decide)

/-- C7: once authentication passes, a missing `method` or `params` key in
the envelope raises InternalServiceError naming the missing key, a method
name outside the fixed six-entry table raises MethodNotFound, and exactly
the six mapped names dispatch to their handlers. -/
theorem dispatcher_envelope_and_routing
    (ctx : Ctx) (b64 : String → Option String) (req : Request) (db : DB) (now : Int)
    (hauth : check_authorize ctx.payme_key b64 req.auth = .ok) :
    (req.method = none →
      post ctx b64 req db now =
        ⟨.err (.internalServiceError "Error processing webhook: KeyError method"), db, []⟩) ∧
    (∀ m, req.method = some m → req.params = none →
      post ctx b64 req db now =
        ⟨.err (.internalServiceError "Error processing webhook: KeyError params"), db, []⟩) ∧
    (∀ m p, req.method = some m → req.params = some p → m ∉ paymeMethodNames →
      post ctx b64 req db now = ⟨.err (.methodNotFound "Method not supported yet!"), db, []⟩) ∧
    (∀ p, req.params = some p →
      (req.method = some "GetStatement" →
        post ctx b64 req db now = wrapOut .statement (get_statement ctx db p)) ∧
      (req.method = some "CancelTransaction" →
        post ctx b64 req db now = wrapOut .cancel (cancel_transaction db p now)) ∧
      (req.method = some "PerformTransaction" →
        post ctx b64 req db now = wrapOut .perform (perform_transaction db p now)) ∧
      (req.method = some "CreateTransaction" →
        post ctx b64 req db now = wrapOut .create (create_transaction ctx db p)) ∧
      (req.method = some "CheckTransaction" →
        post ctx b64 req db now = wrapOut .check (check_transaction db p)) ∧
      (req.method = some "CheckPerformTransaction" →
        post ctx b64 req db now = wrapOut .checkPerform (check_perform_transaction ctx db p))) := by
  refine ⟨?_, ?_, ?_, ?_⟩
  · intro hm
    simp [post, hauth, hm]
  · intro m hm hp
    simp [post, hauth, hm, hp]
  · intro m p hm hp hnot
    simp only [paymeMethodNames, List.mem_cons, List.not_mem_nil, or_false, not_or] at hnot
    obtain ⟨h1, h2, h3, h4, h5, h6⟩ := hnot
    simp [post, hauth, hm, hp, h1, h2, h3, h4, h5, h6]
  · intro p hp
    refine ⟨?_, ?_, ?_, ?_, ?_, ?_⟩ <;> intro hm <;> simp [post, hauth, hm, hp]

theorem dispatcher_witness :
    post ctx0 b64key ⟨some "x", none, none⟩ db0 0 =
      ⟨.err (.internalServiceError "Error processing webhook: KeyError method"), db0, []⟩ :=
  (dispatcher_envelope_and_routing ctx0 b64key ⟨some "x", none, none⟩ db0 0 (by decide)).1 rfl

/-- C2: performing a created transaction and then performing it again
returns the payload of the first successful perform unchanged — same
transaction id, state 2 and `perform_time` of the first call — while the
second call leaves the store untouched and fires no hook. -/
theorem perform_transaction_idempotent
    (db : DB) (params : Params) (pid : String) (tran : Transaction) (now1 now2 : Int)
    (hnd : idsNodup db)
    (hpid : params.id = some pid)
    (hfind : findByExt db pid = some tran)
    (hstate : tran.state = TState.created) :
    (perform_transaction db params now1).result =
      .ok ⟨tran.ext_id, 2, time_to_payme (some now1)⟩ ∧
    (perform_transaction db params now1).hooks = [Hook.performed] ∧
    (perform_transaction (perform_transaction db params now1).db params now2).result =
      .ok ⟨tran.ext_id, 2, time_to_payme (some now1)⟩ ∧
    (perform_transaction (perform_transaction db params now1).db params now2).db =
      (perform_transaction db params now1).db ∧
    (perform_transaction (perform_transaction db params now1).db params now2).hooks = [] := by
  have hext : tran.ext_id = some pid := by
    have h := List.find?_some
      (show List.find? (fun u => u.ext_id == some pid) db = some tran from hfind)
    simpa using h
  have hnp : tran.is_performed = false := by
    simp [Transaction.is_performed, hstate]
  have hmark : tran.mark_as_performed now1 =
      some { tran with state := TState.performed, confirmed_at := some now1 } := by
    simp [Transaction.mark_as_performed, hstate]
  have h1 : perform_transaction db params now1 =
      ⟨.ok ⟨tran.ext_id, 2, time_to_payme (some now1)⟩,
        saveTx db { tran with state := TState.performed, confirmed_at := some now1 },
        [Hook.performed]⟩ := by
    simp [perform_transaction, hpid, hfind, hnp, hmark, Transaction.payme_state]
  have hfind2 :
      findByExt (saveTx db { tran with state := TState.performed, confirmed_at := some now1 }) pid
        = some { tran with state := TState.performed, confirmed_at := some now1 } :=
    find?_saveTx hnd hfind rfl (by simp [hext])
  have hp2 :
      Transaction.is_performed { tran with state := TState.performed, confirmed_at := some now1 }
        = true := by
    simp [Transaction.is_performed]
  have h2 : perform_transaction
      (saveTx db { tran with state := TState.performed, confirmed_at := some now1 }) params now2 =
      ⟨.ok ⟨tran.ext_id, 2, time_to_payme (some now1)⟩,
        saveTx db { tran with state := TState.performed, confirmed_at := some now1 }, []⟩ := by
    simp [perform_transaction, hpid, hfind2, hp2, Transaction.payme_state]
  rw [h1]
  exact ⟨rfl, rfl, by rw [h2], by rw [h2], by rw [h2]⟩

theorem perform_transaction_idempotent_witness :
    (perform_transaction db1 pPerf 50).result =
      .ok ⟨tx1.ext_id, 2, time_to_payme (some 50)⟩ ∧
    (perform_transaction db1 pPerf 50).hooks = [Hook.performed] ∧
    (perform_transaction (perform_transaction db1 pPerf 50).db pPerf 60).result =
      .ok ⟨tx1.ext_id, 2, time_to_payme (some 50)⟩ ∧
    (perform_transaction (perform_transaction db1 pPerf 50).db pPerf 60).db =
      (perform_transaction db1 pPerf 50).db ∧
    (perform_transaction (perform_transaction db1 pPerf 50).db pPerf 60).hooks = [] :=
  perform_transaction_idempotent db1 pPerf "ext1" tx1 50 60
    (by decide) (by decide) (by decide) (by decide)

/-- C3: cancelling an uncancelled transaction responds with state code −2
when it was performed and −1 otherwise, and cancelling again returns the
first cancel payload unchanged with the store untouched and no hook
fired. -/
theorem cancel_transaction_idempotent
    (db : DB) (params : Params) (pid : String) (r : Int) (tran : Transaction) (now1 now2 : Int)
    (hnd : idsNodup db)
    (hpid : params.id = some pid)
    (hreason : params.reason = some r)
    (hfind : findByExt db pid = some tran)
    (hnc : tran.is_cancelled = false) :
    (cancel_transaction db params now1).result =
      .ok ⟨tran.ext_id, if tran.is_performed then -2 else -1, time_to_payme (some now1)⟩ ∧
    (cancel_transaction db params now1).hooks = [Hook.cancelled] ∧
    (cancel_transaction (cancel_transaction db params now1).db params now2).result =
      .ok ⟨tran.ext_id, if tran.is_performed then -2 else -1, time_to_payme (some now1)⟩ ∧
    (cancel_transaction (cancel_transaction db params now1).db params now2).db =
      (cancel_transaction db params now1).db ∧
    (cancel_transaction (cancel_transaction db params now1).db params now2).hooks = [] := by
  have hext : tran.ext_id = some pid := by
    have h := List.find?_some
      (show List.find? (fun u => u.ext_id == some pid) db = some tran from hfind)
    simpa using h
  by_cases hperf : tran.is_performed = true
  · have e1 : (tran.mark_as_cancelled r (-2) now1).ext_id = tran.ext_id := rfl
    have e2 : (tran.mark_as_cancelled r (-2) now1).payme_state = -2 := by
      simp [Transaction.mark_as_cancelled, Transaction.payme_state]
    have e3 : (tran.mark_as_cancelled r (-2) now1).canceled_at = some now1 := rfl
    have h1 : cancel_transaction db params now1 =
        ⟨.ok ⟨tran.ext_id, -2, time_to_payme (some now1)⟩,
          saveTx db (tran.mark_as_cancelled r (-2) now1), [Hook.cancelled]⟩ := by
      simp [cancel_transaction, hpid, hreason, hfind, hnc, hperf, cancelResp, e1, e2, e3]
    have hfind2 : findByExt (saveTx db (tran.mark_as_cancelled r (-2) now1)) pid =
        some (tran.mark_as_cancelled r (-2) now1) :=
      find?_saveTx hnd hfind rfl (by simp [e1, hext])
    have hc2 : (tran.mark_as_cancelled r (-2) now1).is_cancelled = true := by
      simp [Transaction.is_cancelled, Transaction.mark_as_cancelled]
    have h2 : cancel_transaction (saveTx db (tran.mark_as_cancelled r (-2) now1)) params now2 =
        ⟨.ok ⟨tran.ext_id, -2, time_to_payme (some now1)⟩,
          saveTx db (tran.mark_as_cancelled r (-2) now1), []⟩ := by
      simp [cancel_transaction, hpid, hreason, hfind2, hc2, cancelResp, e1, e2, e3]
    refine ⟨?_, ?_, ?_, ?_, ?_⟩ <;> simp [h1, h2, hperf]
  · have hperf' : tran.is_performed = false := by
      simpa using hperf
    have e1 : (tran.mark_as_cancelled r (-1) now1).ext_id = tran.ext_id := rfl
    have e2 : (tran.mark_as_cancelled r (-1) now1).payme_state = -1 := by
      simp [Transaction.mark_as_cancelled, Transaction.payme_state]
    have e3 : (tran.mark_as_cancelled r (-1) now1).canceled_at = some now1 := rfl
    have h1 : cancel_transaction db params now1 =
        ⟨.ok ⟨tran.ext_id, -1, time_to_payme (some now1)⟩,
          saveTx db (tran.mark_as_cancelled r (-1) now1), [Hook.cancelled]⟩ := by
      simp [cancel_transaction, hpid, hreason, hfind, hnc, hperf', cancelResp, e1, e2, e3]
    have hfind2 : findByExt (saveTx db (tran.mark_as_cancelled r (-1) now1)) pid =
        some (tran.mark_as_cancelled r (-1) now1) :=
      find?_saveTx hnd hfind rfl (by simp [e1, hext])
    have hc2 : (tran.mark_as_cancelled r (-1) now1).is_cancelled = true := by
      simp [Transaction.is_cancelled, Transaction.mark_as_cancelled]
    have h2 : cancel_transaction (saveTx db (tran.mark_as_cancelled r (-1) now1)) params now2 =
        ⟨.ok ⟨tran.ext_id, -1, time_to_payme (some now1)⟩,
          saveTx db (tran.mark_as_cancelled r (-1) now1), []⟩ := by
      simp [cancel_transaction, hpid, hreason, hfind2, hc2, cancelResp, e1, e2, e3]
    refine ⟨?_, ?_, ?_, ?_, ?_⟩ <;> simp [h1, h2, hperf']

theorem cancel_transaction_idempotent_witness :
    (cancel_transaction db1 pCancel 70).result =
      .ok ⟨tx1.ext_id, if tx1.is_performed then -2 else -1, time_to_payme (some 70)⟩ ∧
    (cancel_transaction db1 pCancel 70).hooks = [Hook.cancelled] ∧
    (cancel_transaction (cancel_transaction db1 pCancel 70).db pCancel 80).result =
      .ok ⟨tx1.ext_id, if tx1.is_performed then -2 else -1, time_to_payme (some 70)⟩ ∧
    (cancel_transaction (cancel_transaction db1 pCancel 70).db pCancel 80).db =
      (cancel_transaction db1 pCancel 70).db ∧
    (cancel_transaction (cancel_transaction db1 pCancel 70).db pCancel 80).hooks = [] :=
  cancel_transaction_idempotent db1 pCancel "ext1" 3 tx1 70 80
    (by decide) (by decide) (by decide) (by decide) (by decide)

theorem create_transaction_char
    (ctx : Ctx) (db : DB) (params : Params) (acct : List (String × String))
    (tid pid : String) (tran : Transaction)
    (hacct : params.account = some acct)
    (hlook : acct.lookup ctx.account_field = some tid)
    (htid : tid ≠ "")
    (hfind : findById db tid = some tran)
    (hpid : params.id = some pid)
    (hamt : params.amount.getD 0 = tran.total_price * 100) :
    create_transaction ctx db params =
      ⟨.ok ⟨(linkedTx tran pid).ext_id, tran.payme_state, time_to_payme (some tran.created_at)⟩,
        if tran.ext_id = none ∨ tran.ext_id = some "" then saveTx db (linkedTx tran pid) else db,
        [Hook.created]⟩ := by
  by_cases hass : tran.ext_id = none ∨ tran.ext_id = some ""
  · simp [create_transaction, hpid, hacct, hlook, htid, hfind, hamt, hass, linkedTx,
      Transaction.payme_state]
  · simp [create_transaction, hpid, hacct, hlook, htid, hfind, hamt, hass, linkedTx,
      Transaction.payme_state]

/-- C4: two valid CreateTransaction calls with the matching amount and the
same gateway id leave the stored `ext_id` equal to the value stored by the
first call, never change `created_at`, and both return without error;
`ext_id` is assigned (to the gateway id) exactly when it was not already
set, and is kept otherwise. -/
theorem create_transaction_idempotent
    (ctx : Ctx) (db : DB) (params : Params) (acct : List (String × String))
    (tid pid : String) (tran : Transaction)
    (hnd : idsNodup db)
    (hacct : params.account = some acct)
    (hlook : acct.lookup ctx.account_field = some tid)
    (htid : tid ≠ "")
    (hfind : findById db tid = some tran)
    (hpid : params.id = some pid)
    (hamt : params.amount.getD 0 = tran.total_price * 100) :
    (create_transaction ctx db params).result =
      .ok ⟨(linkedTx tran pid).ext_id, tran.payme_state, time_to_payme (some tran.created_at)⟩ ∧
    findById (create_transaction ctx db params).db tid = some (linkedTx tran pid) ∧
    (linkedTx tran pid).created_at = tran.created_at ∧
    ((tran.ext_id = none ∨ tran.ext_id = some "") → (linkedTx tran pid).ext_id = some pid) ∧
    (¬(tran.ext_id = none ∨ tran.ext_id = some "") → linkedTx tran pid = tran) ∧
    (create_transaction ctx (create_transaction ctx db params).db params).result =
      .ok ⟨(linkedTx tran pid).ext_id, tran.payme_state, time_to_payme (some tran.created_at)⟩ ∧
    findById (create_transaction ctx (create_transaction ctx db params).db params).db tid =
      some (linkedTx tran pid) := by
  have hidt0 := List.find?_some (show List.find? (fun u => u.id == tid) db = some tran from hfind)
  have hidt : (tran.id == tid) = true := hidt0
  have hchar1 := create_transaction_char ctx db params acct tid pid tran
    hacct hlook htid hfind hpid hamt
  by_cases hass : tran.ext_id = none ∨ tran.ext_id = some ""
  · have hlt : linkedTx tran pid = { tran with ext_id := some pid } := by
      simp [linkedTx, hass]
    have hdb1 : (create_transaction ctx db params).db = saveTx db (linkedTx tran pid) := by
      rw [hchar1]
      simp [hass]
    have hp1 : ((linkedTx tran pid).id == tid) = true := by
      rw [hlt]
      simpa using hidt
    have hfind1 : findById (saveTx db (linkedTx tran pid)) tid = some (linkedTx tran pid) :=
      find?_saveTx hnd hfind (by rw [hlt]) hp1
    have hext1 : (linkedTx tran pid).ext_id = some pid := by
      rw [hlt]
    have hst : (linkedTx tran pid).payme_state = tran.payme_state := by
      rw [hlt]
      rfl
    have hcr : (linkedTx tran pid).created_at = tran.created_at := by
      rw [hlt]
    have hamt2 : params.amount.getD 0 = (linkedTx tran pid).total_price * 100 := by
      rw [hlt]
      exact hamt
    have hchar2 := create_transaction_char ctx (saveTx db (linkedTx tran pid)) params acct tid pid
      (linkedTx tran pid) hacct hlook htid hfind1 hpid hamt2
    have hunf : linkedTx (linkedTx tran pid) pid =
        if (linkedTx tran pid).ext_id = none ∨ (linkedTx tran pid).ext_id = some "" then
          { linkedTx tran pid with ext_id := some pid }
        else linkedTx tran pid := rfl
    have hext2 : (linkedTx (linkedTx tran pid) pid).ext_id = some pid := by
      rw [hunf]
      by_cases h2 : (linkedTx tran pid).ext_id = none ∨ (linkedTx tran pid).ext_id = some ""
      · rw [if_pos h2]
      · rw [if_neg h2]
        exact hext1
    refine ⟨?_, ?_, hcr, fun _ => hext1, fun h => absurd hass h, ?_, ?_⟩
    · rw [hchar1]
    · rw [hdb1]
      exact hfind1
    · rw [hdb1, hchar2]
      simp [hext2, hst, hcr, hext1]
    · rw [hdb1, hchar2]
      by_cases h2 : (linkedTx tran pid).ext_id = none ∨ (linkedTx tran pid).ext_id = some ""
      · have heq : linkedTx (linkedTx tran pid) pid = linkedTx tran pid := by
          rw [hunf, if_pos h2, ← hext1]
        simp only [if_pos h2, heq]
        exact find?_saveTx (idsNodup_saveTx hnd) hfind1 rfl hp1
      · simp only [if_neg h2]
        exact hfind1
  · have hlt : linkedTx tran pid = tran := by
      simp [linkedTx, hass]
    have hdb1 : (create_transaction ctx db params).db = db := by
      rw [hchar1]
      simp [hass]
    refine ⟨?_, ?_, by rw [hlt], fun h => absurd h hass, fun _ => hlt, ?_, ?_⟩
    · rw [hchar1]
    · rw [hdb1, hlt]
      exact hfind
    · rw [hdb1, hchar1]
    · rw [hdb1, hdb1, hlt]
      exact hfind

theorem create_transaction_idempotent_witness :
    (create_transaction ctx0 db0 pOk).result =
      .ok ⟨(linkedTx tx0 "ext9").ext_id, tx0.payme_state, time_to_payme (some tx0.created_at)⟩ ∧
    findById (create_transaction ctx0 db0 pOk).db "5" = some (linkedTx tx0 "ext9") ∧
    (linkedTx tx0 "ext9").created_at = tx0.created_at ∧
    ((tx0.ext_id = none ∨ tx0.ext_id = some "") → (linkedTx tx0 "ext9").ext_id = some "ext9") ∧
    (¬(tx0.ext_id = none ∨ tx0.ext_id = some "") → linkedTx tx0 "ext9" = tx0) ∧
    (create_transaction ctx0 (create_transaction ctx0 db0 pOk).db pOk).result =
      .ok ⟨(linkedTx tx0 "ext9").ext_id, tx0.payme_state, time_to_payme (some tx0.created_at)⟩ ∧
    findById (create_transaction ctx0 (create_transaction ctx0 db0 pOk).db pOk).db "5" =
      some (linkedTx tx0 "ext9") :=
  create_transaction_idempotent ctx0 db0 pOk [("order_id", "5")] "5" "ext9" tx0
    (by decide) (by decide) (by decide) (by decide) (by decide) (by decide)
    (by norm_num [pOk, tx0])

/-- C8: a GetStatement call over [from, to] returns exactly the shaped
rows of the stored transactions whose `created_at` (in service time,
after converting the bounds) lies in the inclusive range, ordered by
`created_at` descending, and leaves the store untouched. -/
theorem get_statement_range_sorted
    (ctx : Ctx) (db : DB) (params : Params) (a b : Int)
    (hf : params.fromTime = some a) (ht : params.toTime = some b) :
    (get_statement ctx db params).result =
      .ok ⟨(List.insertionSort stmtGE (db.filter
        (fun t => decide (time_to_service a ≤ t.created_at ∧ t.created_at ≤ time_to_service b)))).map
        (statementItem ctx)⟩ ∧
    (get_statement ctx db params).db = db ∧
    (get_statement ctx db params).hooks = [] ∧
    (∀ t, t ∈ List.insertionSort stmtGE (db.filter
        (fun t => decide (time_to_service a ≤ t.created_at ∧ t.created_at ≤ time_to_service b))) ↔
      (t ∈ db ∧ time_to_service a ≤ t.created_at ∧ t.created_at ≤ time_to_service b)) ∧
    (List.insertionSort stmtGE (db.filter
      (fun t => decide (time_to_service a ≤ t.created_at ∧ t.created_at ≤ time_to_service b)))).Sorted
      stmtGE := by
  refine ⟨by simp [get_statement, hf, ht], by simp [get_statement, hf, ht],
    by simp [get_statement, hf, ht], ?_, ?_⟩
  · intro t
    rw [(List.perm_insertionSort stmtGE _).mem_iff]
    simp [List.mem_filter]
  · exact List.sorted_insertionSort stmtGE _

theorem get_statement_range_sorted_witness :
    (get_statement ctx0 db1 pStmt).db = db1 ∧
    (List.insertionSort stmtGE (db1.filter
      (fun t => decide (time_to_service 0 ≤ t.created_at ∧ t.created_at ≤ time_to_service 100)))).Sorted
      stmtGE :=
  ⟨(get_statement_range_sorted ctx0 db1 pStmt 0 100 (by decide) (by decide)).2.1,
   (get_statement_range_sorted ctx0 db1 pStmt 0 100 (by decide) (by decide)).2.2.2.2⟩

end Payme
